import Mathlib

/-!
Shallow embedding of `packages/app/src/cli/services/dev/extension/bundler.ts`
from the shopify-cli repository, together with proofs about the watch-build-sync
pipeline it implements: per-extension file watching, cancellable builds,
draft syncing, and shutdown.

Conventions of the embedding:
* Output side effects (`outputDebug`, `outputInfo`, `outputWarn`), remote calls
  (`updateExtensionDraft`, `updateExtensionConfig`, the payload store update)
  and build invocations are reified as `Action` values emitted by the handlers.
* A settled promise-continuation chain (`then` / `catch` / `finally`) is
  evaluated by an explicit chain function returning the emitted actions and the
  final promise state, so that "the rejection is caught" is a provable fact.
* JavaScript array aliasing matters in `getFunctionWatchPaths` (the source
  pushes into `extension.watchPaths` through the `?? []` alias), so that
  function returns the extension object as it stands after the call as well.
-/

namespace S2P

/-- Observable effects performed by the handlers in bundler.ts. Each
constructor names the function called in the source. -/
inductive Action where
  /-- A call to outputDebug with the given message. -/
  | outputDebug (msg : String)
  /-- A call to outputInfo with the given message. -/
  | outputInfo (msg : String)
  /-- A call to outputWarn with the given message. -/
  | outputWarn (msg : String)
  /-- A call to payloadStore.updateExtension (locale notification or status push). -/
  | payloadStoreUpdateExtension
  /-- A call to updateExtensionDraft (remote draft sync). -/
  | updateExtensionDraft
  /-- A call to updateExtensionConfig (remote config sync). -/
  | updateExtensionConfig
  /-- A call to bundleExtension (the esbuild-based Build Invoker). -/
  | bundleExtension
  /-- A call to buildFunctionExtension (the function Build Invoker). -/
  | buildFunctionExtension
  /-- An asynchronous close attempt on a chokidar watcher handle,
  tagged with the devUUID of the owning extension. -/
  | watcherCloseAttempt (devUUID : String)
  deriving DecidableEq, Repr

/-- The settled state of a JavaScript promise at the end of a continuation
chain: fulfilled, or rejected with an uncaught error. -/
inductive PromiseState where
  | fulfilled
  | rejected
  deriving DecidableEq, Repr

/-- The fields of an ExtensionInstance that bundler.ts reads. `watchPaths`
is the configured watch-path list of the function extension. The source
accesses it as a plain array (the `?? []` guard in getFunctionWatchPaths is
the identity here, and the pushes below alias the instance field exactly as
the JavaScript pushes alias the array). -/
structure ExtensionInstance where
  directory : String
  devUUID : String
  localIdentifier : String
  isJavaScript : Bool
  watchPaths : List String
  deriving DecidableEq, Repr

/-- Modelled from the spec: `joinPath` from `@shopify/cli-kit/node/path`
(that package file is not part of the analysed sources). It joins path
segments with a slash; watch targets are plain paths/globs (spec section 3),
so no further normalisation is modelled. -/
def joinPath : List String → String
  | [] => ""
  | [segment] => segment
  | segment :: rest => segment ++ "/" ++ joinPath rest

/-- Embedding of `getFunctionWatchPaths` (bundler.ts lines 302-315). The
first component is the returned value (`none` embeds the `null` return); the
second is the extension object after the call. In the source,
`const watchPaths: string[] = extension.watchPaths ?? []` aliases the
instance array whenever it is present, so the two `push` calls and the
`input*.graphql` push mutate `extension.watchPaths` in place; the embedding
threads that mutation into the returned instance. The `.map` at the end
builds a fresh array, so the directory prefix is not written back. -/
def getFunctionWatchPaths (extension : ExtensionInstance) :
    Option (List String) × ExtensionInstance :=
  if !extension.isJavaScript && extension.watchPaths.length == 0 then
    (none, extension)
  else
    let watchPaths := extension.watchPaths
    let watchPaths :=
      if extension.isJavaScript && watchPaths.length == 0 then
        watchPaths ++ [joinPath ["src", "**", "*.js"], joinPath ["src", "**", "*.ts"]]
      else
        watchPaths
    let watchPaths := watchPaths ++ [joinPath ["**", "input*.graphql"]]
    (some (watchPaths.map fun path => joinPath [extension.directory, path]),
     { extension with watchPaths := watchPaths })

/-- The outcome of the startup phase of `setupFunctionWatcher`: either the
unit was skipped with a warning (the early `return`), or a chokidar watcher
was started on the given paths. -/
inductive FunctionWatchStart where
  /-- The early return branch: no watcher opened, no build possible. -/
  | skipped
  /-- A chokidar watcher was opened on these paths. -/
  | watching (paths : List String)
  deriving DecidableEq, Repr

/-- Embedding of the startup phase of `setupFunctionWatcher` (bundler.ts
lines 244-254): the debug line, the call to getFunctionWatchPaths, and either
the warn-and-return branch or the start of the chokidar watcher. Returns the
emitted actions, what was started, and the extension object after the call. -/
def setupFunctionWatcherStart (extension : ExtensionInstance) :
    List Action × FunctionWatchStart × ExtensionInstance :=
  let startActs := [Action.outputDebug
    ("Starting watcher for function extension " ++ extension.devUUID)]
  match getFunctionWatchPaths extension with
  | (none, ext) =>
      (startActs ++ [Action.outputWarn
        ("Function extension " ++ extension.localIdentifier ++
         " does not have a watch path configured, draft version deployment is disabled.")],
       FunctionWatchStart.skipped, ext)
  | (some watchPaths, ext) =>
      (startActs ++ [Action.outputDebug
        ("Watching paths for function extension " ++ extension.localIdentifier)],
       FunctionWatchStart.watching watchPaths, ext)

/-! ## The function-watcher change handler as a state machine

`setupFunctionWatcher` (bundler.ts lines 255-283) keeps one mutable closure
variable `buildController` and starts one `buildFunctionExtension` promise
chain per change event. The embedding identifies each AbortController by the
order of its creation (a natural number), tracks which controllers have been
aborted and which builds are still unsettled, and steps the state on each of
the two kinds of scheduler events: a chokidar change callback firing, and a
build promise settling (which runs its whole then/catch/finally chain, the
draft sync included, before the next event). -/

/-- The closure state of one `setupFunctionWatcher` change handler.
Controllers are numbered in order of creation; `buildController` is the
mutable variable of the closure (holding a controller id or null),
`aborted` is the set of controllers whose `abort()` has been called, and
`inFlight` is the set of controller ids whose build promise chain has not
settled yet. -/
structure FunctionWatchState where
  buildController : Option Nat
  nextId : Nat
  aborted : Finset Nat
  inFlight : Finset Nat
  deriving DecidableEq

/-- The state before any change event: `let buildController` is declared but
unassigned, so the `if (buildController)` guard sees a falsy value. -/
def initialFunctionWatchState : FunctionWatchState :=
  { buildController := none, nextId := 0, aborted := ∅, inFlight := ∅ }

/-- A scheduler event observable by the change handler: a chokidar change
callback, or the settling of the build chain started for controller `cid`
(`buildOk` is whether `buildFunctionExtension` fulfilled, `syncOk` whether
`updateExtensionDraft` fulfills when the chain reaches it). -/
inductive FunctionWatchEvent where
  | change
  | settle (cid : Nat) (buildOk : Bool) (syncOk : Bool)
  deriving DecidableEq, Repr

/-- Embedding of the chokidar change callback body (bundler.ts lines
257-271): log, abort the controller currently held by `buildController` if
any, create a fresh controller, store it in `buildController`, and start
`buildFunctionExtension` under its signal. -/
def functionWatcherOnChange (s : FunctionWatchState) :
    FunctionWatchState × List Action :=
  let aborted :=
    match s.buildController with
    | some cid => insert cid s.aborted
    | none => s.aborted
  let fresh := s.nextId
  ({ buildController := some fresh
     nextId := fresh + 1
     aborted := aborted
     inFlight := insert fresh s.inFlight },
   [Action.outputDebug "Function extension file changed",
    Action.buildFunctionExtension])

/-- Evaluation of the continuation chain attached to one
`buildFunctionExtension` call (bundler.ts lines 265-279, the `finally` body
excluded, which is applied by the caller to the state):
`.then` syncs the draft only when the signal captured for this build has not
been aborted; `.catch` logs a warning for any rejection, of the build or of
the sync. Returns the emitted actions and the settled state of the chain. -/
def buildChain (signalAborted buildOk syncOk : Bool) : List Action × PromiseState :=
  let afterThen : List Action × PromiseState :=
    if buildOk then
      if !signalAborted then
        ([Action.updateExtensionDraft],
         if syncOk then PromiseState.fulfilled else PromiseState.rejected)
      else
        ([], PromiseState.fulfilled)
    else
      ([], PromiseState.rejected)
  match afterThen with
  | (acts, PromiseState.rejected) =>
      (acts ++ [Action.outputWarn "Error while deploying updated extension draft"],
       PromiseState.fulfilled)
  | (acts, PromiseState.fulfilled) => (acts, PromiseState.fulfilled)

/-- Embedding of a build chain settling: if the build for controller `cid`
is still unsettled, run its chain (`buildChain`) and then the `finally`
callback, which sets the closure variable `buildController` to null
unconditionally (bundler.ts lines 280-282) — also when `buildController`
currently holds a newer controller. A `settle` for a controller not in
flight is a scheduler impossibility and leaves the state unchanged. -/
def functionWatcherOnSettle (s : FunctionWatchState) (cid : Nat)
    (buildOk syncOk : Bool) : FunctionWatchState × List Action :=
  if cid ∈ s.inFlight then
    ({ s with inFlight := s.inFlight.erase cid, buildController := none },
     (buildChain (cid ∈ s.aborted) buildOk syncOk).1)
  else
    (s, [])

/-- One step of the function-watcher state machine. -/
def functionWatcherStep (s : FunctionWatchState) :
    FunctionWatchEvent → FunctionWatchState × List Action
  | FunctionWatchEvent.change => functionWatcherOnChange s
  | FunctionWatchEvent.settle cid buildOk syncOk =>
      functionWatcherOnSettle s cid buildOk syncOk

/-- The state reached after a sequence of events. -/
def functionWatcherRun (s : FunctionWatchState) :
    List FunctionWatchEvent → FunctionWatchState
  | [] => s
  | e :: es => functionWatcherRun (functionWatcherStep s e).1 es

/-- The actions emitted by one event fired after a prefix of events. -/
def functionWatcherActsAfter (pre : List FunctionWatchEvent)
    (e : FunctionWatchEvent) : List Action :=
  (functionWatcherStep (functionWatcherRun initialFunctionWatchState pre) e).2

/-- The active builds of a state: started, not settled, not told to cancel. -/
def activeBuilds (s : FunctionWatchState) : Finset Nat :=
  s.inFlight.filter (fun cid => cid ∉ s.aborted)

/-! ## The draftable-extension watch callback -/

/-- The esbuild rebuild result passed to the `watch` callback: `errors` may
itself be absent, which is why the source guards with `result?.errors?.length
?? 0`. -/
structure BundleResult where
  errors : Option (List String)
  deriving DecidableEq, Repr

/-- The `result?.errors?.length ?? 0` expression of the source: the number of
errors of a possibly-absent result with a possibly-absent error list. -/
def bundleErrorCount (result : Option BundleResult) : Nat :=
  match result with
  | none => 0
  | some r =>
      match r.errors with
      | none => 0
      | some es => es.length

/-- Embedding of the `watch` callback of `setupDraftableExtensionBundler`
(bundler.ts lines 157-166): compute the error flag, log, return early on
error, otherwise call `updateExtensionDraft`. -/
def draftableExtensionWatch (result : Option BundleResult) : List Action :=
  let error := bundleErrorCount result > 0
  let logActs := [Action.outputInfo
    (if error then "The Javascript bundle of the extension has an error"
     else "The Javascript bundle of the extension has changed")]
  if error then logActs
  else logActs ++ [Action.updateExtensionDraft]

/-! ## The locale and config change handlers -/

/-- Embedding of the locale-watcher change callback (bundler.ts lines 78-87):
log, call `payloadStore.updateExtension`, then log on fulfilment; a rejection
is swallowed by the final `.catch`. `storeOk` is whether the payload-store
update fulfills. Returns the actions and the settled chain state. -/
def localeWatcherOnChange (storeOk : Bool) : List Action × PromiseState :=
  let started := [Action.outputDebug "Locale file changed",
                  Action.payloadStoreUpdateExtension]
  if storeOk then
    (started ++ [Action.outputDebug "Notified extension about the locale change."],
     PromiseState.fulfilled)
  else
    (started, PromiseState.fulfilled)

/-- Embedding of the config-watcher change callback of `setupConfigWatcher`
(bundler.ts lines 195-200): log, call `updateExtensionConfig`; a rejection is
swallowed by `.catch((_: unknown) => \x7b\x7d)`. `configOk` is whether the
config push fulfills. -/
def configWatcherOnChange (configOk : Bool) : List Action × PromiseState :=
  let _ := configOk
  ([Action.outputInfo "Config file changed", Action.updateExtensionConfig],
   PromiseState.fulfilled)

/-! ## setupBundlerAndFileWatcher -/

/-- The per-extension environment of one `setupBundlerAndFileWatcher` call:
the extension together with the behaviour of its external collaborators —
whether `chokidar.watch` on its locale glob throws synchronously, and
whether its `bundleExtension` promise fulfills. -/
structure BundlerSetupInput where
  devUUID : String
  chokidarThrows : Bool
  bundlerFulfills : Bool
  deriving DecidableEq, Repr

/-- What one iteration of the `forEach` over extensions (bundler.ts lines
37-104) accomplishes for its extension. The `bundleExtension` promise is
pushed before the locale watcher is opened, so it is created even when
`chokidar.watch` throws; a synchronous throw inside the `async` callback
becomes a rejected, discarded promise, skipping only the rest of that
iteration (the locale watcher and its abort listener). -/
structure UnitSessionStart where
  devUUID : String
  bundlerStarted : Bool
  localeWatcherStarted : Bool
  abortListenerRegistered : Bool
  deriving DecidableEq, Repr

/-- One iteration of the `forEach` body for a single extension. -/
def bundlerSetupIteration (input : BundlerSetupInput) : UnitSessionStart :=
  { devUUID := input.devUUID
    bundlerStarted := true
    localeWatcherStarted := !input.chokidarThrows
    abortListenerRegistered := !input.chokidarThrows }

/-- Embedding of `setupBundlerAndFileWatcher` (bundler.ts lines 30-113):
the `forEach` runs every iteration (no iteration can stop the others), then
`await Promise.all(bundlers)` — the function fulfills with the close handle
only when every pushed `bundleExtension` promise fulfills, and rejects
otherwise. The first component lists what each iteration started; the second
is true exactly when the caller receives the `\x7bclose\x7d` handle. -/
def setupBundlerAndFileWatcher (inputs : List BundlerSetupInput) :
    List UnitSessionStart × Bool :=
  (inputs.map bundlerSetupIteration,
   inputs.all (fun input => input.bundlerFulfills))

/-! ## Shutdown: the abort signal and the watcher close listeners -/

/-- A registered abort listener owning one chokidar watcher handle:
the devUUID it logs with and whether its `close()` promise fulfills. -/
structure WatcherHandle where
  devUUID : String
  closeFulfills : Bool
  deriving DecidableEq, Repr

/-- Embedding of one abort-listener body (bundler.ts lines 89-103, 202-216
and 285-299 share this shape): log, start the close attempt, then log the
fulfilment or log the failure through `.catch` — the rejection never
escapes. Returns the actions and the settled chain state. -/
def watcherAbortListener (handle : WatcherHandle) : List Action × PromiseState :=
  let started := [Action.outputDebug ("Closing file watching for extension with ID " ++
                    handle.devUUID),
                  Action.watcherCloseAttempt handle.devUUID]
  if handle.closeFulfills then
    (started ++ [Action.outputDebug ("File watching closed for extension with " ++
       handle.devUUID)], PromiseState.fulfilled)
  else
    (started ++ [Action.outputDebug ("File watching failed to close for extension with " ++
       handle.devUUID)], PromiseState.fulfilled)

/-- The orchestrator-side state of the shared AbortController: whether its
signal has already fired, and how many remote sync attempts are pending
(close neither waits for nor cancels them). -/
structure OrchestratorState where
  signalFired : Bool
  pendingSyncs : Nat
  deriving DecidableEq, Repr

/-- Embedding of the returned `close` handle (bundler.ts lines 108-112):
`abortController.abort()`. Per the platform semantics of AbortController,
the abort event is dispatched only on the transition to the aborted state,
so a second call runs no listener. Firing runs every registered listener in
order; `close` itself returns synchronously, without awaiting any close
promise or any pending sync. -/
def orchestratorClose (st : OrchestratorState) (handles : List WatcherHandle) :
    OrchestratorState × List Action :=
  if st.signalFired then
    (st, [])
  else
    ({ st with signalFired := true },
     handles.flatMap (fun handle => (watcherAbortListener handle).1))

/-! ## Theorems -/

/-- Splitting `joinPath` over a two-segment list. -/
theorem joinPath_pair (a b : String) : joinPath [a, b] = a ++ "/" ++ b := rfl

/-- C10: `getFunctionWatchPaths` returns null exactly when the extension is
not JavaScript and has an empty configured watchPaths list; otherwise it
returns a non-empty list whose entries are all prefixed with the extension
directory, whose last entry is the directory-prefixed glob
`**/input*.graphql`, and which for a JavaScript extension with no configured
paths is exactly the two `src` defaults followed by that glob. -/
theorem getFunctionWatchPaths_spec (ext : ExtensionInstance) :
    ((getFunctionWatchPaths ext).1 = none ↔
      ext.isJavaScript = false ∧ ext.watchPaths = []) ∧
    ∀ l, (getFunctionWatchPaths ext).1 = some l →
      l ≠ [] ∧
      (∀ s ∈ l, ∃ p, s = ext.directory ++ "/" ++ p) ∧
      l.getLast? = some (ext.directory ++ "/" ++ "**/input*.graphql") ∧
      (ext.isJavaScript = true → ext.watchPaths = [] →
        l = [ext.directory ++ "/" ++ "src/**/*.js",
             ext.directory ++ "/" ++ "src/**/*.ts",
             ext.directory ++ "/" ++ "**/input*.graphql"]) := by
  cases hJS : ext.isJavaScript with
  | false =>
    cases hWP : ext.watchPaths with
    | nil =>
      simp [getFunctionWatchPaths, hJS, hWP]
    | cons p ps =>
      constructor
      · simp [getFunctionWatchPaths, hJS, hWP]
      · intro l hl
        simp [getFunctionWatchPaths, hJS, hWP] at hl
        subst hl
        refine ⟨by simp, ?_, ?_, by simp [hJS]⟩
        · intro s hs
          rcases List.mem_cons.mp hs with rfl | hs2
          · exact ⟨p, rfl⟩
          rcases List.mem_append.mp hs2 with hs3 | hs4
          · rcases List.mem_map.mp hs3 with ⟨q, _, rfl⟩
            exact ⟨q, rfl⟩
          · rcases List.mem_singleton.mp hs4 with rfl
            exact ⟨"**/input*.graphql", rfl⟩
        · rw [← List.cons_append, List.getLast?_concat]
          rfl
  | true =>
    cases hWP : ext.watchPaths with
    | nil =>
      constructor
      · simp [getFunctionWatchPaths, hJS, hWP]
      · intro l hl
        simp [getFunctionWatchPaths, hJS, hWP] at hl
        subst hl
        refine ⟨by simp, ?_, ?_, ?_⟩
        · intro s hs
          rcases List.mem_cons.mp hs with rfl | hs2
          · exact ⟨"src/**/*.js", rfl⟩
          rcases List.mem_cons.mp hs2 with rfl | hs3
          · exact ⟨"src/**/*.ts", rfl⟩
          rcases List.mem_cons.mp hs3 with rfl | hs4
          · exact ⟨"**/input*.graphql", rfl⟩
          · exact absurd hs4 (List.not_mem_nil s)
        · rfl
        · intro _ _
          rfl
    | cons p ps =>
      constructor
      · simp [getFunctionWatchPaths, hJS, hWP]
      · intro l hl
        simp [getFunctionWatchPaths, hJS, hWP] at hl
        subst hl
        refine ⟨by simp, ?_, ?_, by simp⟩
        · intro s hs
          rcases List.mem_cons.mp hs with rfl | hs2
          · exact ⟨p, rfl⟩
          rcases List.mem_append.mp hs2 with hs3 | hs4
          · rcases List.mem_map.mp hs3 with ⟨q, _, rfl⟩
            exact ⟨q, rfl⟩
          · rcases List.mem_singleton.mp hs4 with rfl
            exact ⟨"**/input*.graphql", rfl⟩
        · rw [← List.cons_append, List.getLast?_concat]
          rfl

/-- Witness for C10: the spec theorem evaluated on a concrete JavaScript
extension with no configured paths. -/
theorem getFunctionWatchPaths_spec_witness :
    (getFunctionWatchPaths
        { directory := "fn-dir", devUUID := "uuid-js", localIdentifier := "js-fn",
          isJavaScript := true, watchPaths := [] }).1 =
      some ["fn-dir/src/**/*.js", "fn-dir/src/**/*.ts", "fn-dir/**/input*.graphql"] := by
  have h := getFunctionWatchPaths_spec
    { directory := "fn-dir", devUUID := "uuid-js", localIdentifier := "js-fn",
      isJavaScript := true, watchPaths := [] }
  rcases hv : (getFunctionWatchPaths
      { directory := "fn-dir", devUUID := "uuid-js", localIdentifier := "js-fn",
        isJavaScript := true, watchPaths := [] }).1 with _ | l
  · exact absurd ((h.1.mp hv).1) (by decide)
  · have := (h.2 l hv).2.2.2 rfl rfl
    subst this
    exact congrArg Option.some (by decide)

/-- A JavaScript function extension with one configured watch path, as a
dev session would hold it. -/
def sampleFunctionExtension : ExtensionInstance :=
  { directory := "ext-dir", devUUID := "uuid-1", localIdentifier := "my-fn",
    isJavaScript := true, watchPaths := ["src/run.js"] }

/-- C5: computing the watch paths is not effect-free on the extension
instance: `getFunctionWatchPaths` pushes through the alias created by
`extension.watchPaths ?? []`, so after the call the configured watchPaths
list of the instance has gained the entry `**/input*.graphql` — the
instance is not left unchanged. -/
theorem getFunctionWatchPaths_mutates_the_extension :
    (getFunctionWatchPaths sampleFunctionExtension).2.watchPaths =
        ["src/run.js", "**/input*.graphql"] ∧
      (getFunctionWatchPaths sampleFunctionExtension).2 ≠ sampleFunctionExtension := by
  decide

/-- C7: starting the function watcher for a non-JavaScript extension with an
empty configured watchPaths list takes the early-return branch: the promised
warning is emitted, no watcher is opened, no build is invoked, the extension
is untouched, and the start function returns normally (it is total, so
nothing is thrown that could abort other units). -/
theorem setupFunctionWatcher_skips_unit_without_watch_paths
    (ext : ExtensionInstance) (hJS : ext.isJavaScript = false)
    (hWP : ext.watchPaths = []) :
    (setupFunctionWatcherStart ext).2.1 = FunctionWatchStart.skipped ∧
    Action.outputWarn ("Function extension " ++ ext.localIdentifier ++
        " does not have a watch path configured, draft version deployment is disabled.")
      ∈ (setupFunctionWatcherStart ext).1 ∧
    Action.buildFunctionExtension ∉ (setupFunctionWatcherStart ext).1 ∧
    (setupFunctionWatcherStart ext).2.2 = ext := by
  have hnone : getFunctionWatchPaths ext = (none, ext) := by
    simp [getFunctionWatchPaths, hJS, hWP]
  simp [setupFunctionWatcherStart, hnone]

/-- Witness for C7: the skip theorem applied to a concrete non-JavaScript
function extension with no configured watch paths. -/
theorem setupFunctionWatcher_skips_unit_without_watch_paths_witness :
    (setupFunctionWatcherStart
        { directory := "fn-dir", devUUID := "uuid-2", localIdentifier := "wasm-fn",
          isJavaScript := false, watchPaths := [] }).2.1 = FunctionWatchStart.skipped ∧
    Action.outputWarn ("Function extension " ++ "wasm-fn" ++
        " does not have a watch path configured, draft version deployment is disabled.")
      ∈ (setupFunctionWatcherStart
          { directory := "fn-dir", devUUID := "uuid-2", localIdentifier := "wasm-fn",
            isJavaScript := false, watchPaths := [] }).1 ∧
    Action.buildFunctionExtension ∉ (setupFunctionWatcherStart
        { directory := "fn-dir", devUUID := "uuid-2", localIdentifier := "wasm-fn",
          isJavaScript := false, watchPaths := [] }).1 ∧
    (setupFunctionWatcherStart
        { directory := "fn-dir", devUUID := "uuid-2", localIdentifier := "wasm-fn",
          isJavaScript := false, watchPaths := [] }).2.2 =
      { directory := "fn-dir", devUUID := "uuid-2", localIdentifier := "wasm-fn",
        isJavaScript := false, watchPaths := [] } :=
  setupFunctionWatcher_skips_unit_without_watch_paths
    { directory := "fn-dir", devUUID := "uuid-2", localIdentifier := "wasm-fn",
      isJavaScript := false, watchPaths := [] } rfl rfl

/-- A step of the function-watcher machine never un-aborts a controller:
the set of aborted controllers only grows. -/
theorem aborted_mono_step (s : FunctionWatchState) (e : FunctionWatchEvent) :
    s.aborted ⊆ (functionWatcherStep s e).1.aborted := by
  cases e with
  | change =>
    simp only [functionWatcherStep, functionWatcherOnChange]
    cases hbc : s.buildController with
    | none => simp
    | some cid =>
      intro x hx
      simp only [Finset.mem_insert]
      exact Or.inr hx
  | settle cid buildOk syncOk =>
    simp only [functionWatcherStep, functionWatcherOnSettle]
    split
    · exact fun x hx => hx
    · exact fun x hx => hx

/-- Running any event sequence never un-aborts a controller. -/
theorem aborted_mono_run (es : List FunctionWatchEvent) (s : FunctionWatchState) :
    s.aborted ⊆ (functionWatcherRun s es).aborted := by
  induction es generalizing s with
  | nil => exact fun x hx => hx
  | cons e es ih =>
    exact fun x hx => ih (functionWatcherStep s e).1 (aborted_mono_step s e hx)

/-- The continuation chain of a build whose signal was aborted never calls
`updateExtensionDraft`, whatever the build and sync outcomes. -/
theorem buildChain_aborted_no_sync (buildOk syncOk : Bool) :
    Action.updateExtensionDraft ∉ (buildChain true buildOk syncOk).1 := by
  revert buildOk syncOk
  decide

/-- C1 (divergence witness): the single-active-build discipline breaks. After
change events create builds 0 and 1 (aborting 0) and the stale build 0 then
settles — whose `finally` sets the shared `buildController` variable to null —
a third change event finds `buildController` null and so never aborts build 1,
which is still in flight: after that event builds 1 and 2 are both active
(in flight and non-cancelled) at once. -/
theorem functionWatcher_change_misses_inflight_build :
    (1 ∈ (functionWatcherRun initialFunctionWatchState
        [FunctionWatchEvent.change, FunctionWatchEvent.change,
         FunctionWatchEvent.settle 0 true true]).inFlight ∧
     1 ∉ (functionWatcherRun initialFunctionWatchState
        [FunctionWatchEvent.change, FunctionWatchEvent.change,
         FunctionWatchEvent.settle 0 true true]).aborted ∧
     (functionWatcherRun initialFunctionWatchState
        [FunctionWatchEvent.change, FunctionWatchEvent.change,
         FunctionWatchEvent.settle 0 true true]).buildController = none) ∧
    activeBuilds (functionWatcherRun initialFunctionWatchState
        [FunctionWatchEvent.change, FunctionWatchEvent.change,
         FunctionWatchEvent.settle 0 true true, FunctionWatchEvent.change]) = {1, 2} := by
  decide

/-- C2 (counterexample to the error-report half): after two change events the
first build (controller 0) is superseded; if that stale build then settles
with a rejection, the shared `.catch` handler still emits the warning — the
stale result is not silent. -/
theorem functionWatcher_stale_failure_still_reported :
    Action.outputWarn "Error while deploying updated extension draft" ∈
      functionWatcherActsAfter [FunctionWatchEvent.change, FunctionWatchEvent.change]
        (FunctionWatchEvent.settle 0 false true) := by
  decide

/-- C2 (amended): once a second change event supersedes the first build
(controller 0), the settling of that first build — at any later point, with
any build or sync outcome — never triggers a remote draft sync. -/
theorem functionWatcher_superseded_build_never_syncs
    (mid : List FunctionWatchEvent) (buildOk syncOk : Bool) :
    Action.updateExtensionDraft ∉
      functionWatcherActsAfter
        (FunctionWatchEvent.change :: FunctionWatchEvent.change :: mid)
        (FunctionWatchEvent.settle 0 buildOk syncOk) := by
  have h0 : 0 ∈ (functionWatcherRun initialFunctionWatchState
      [FunctionWatchEvent.change, FunctionWatchEvent.change]).aborted := by decide
  have hrun : functionWatcherRun initialFunctionWatchState
      (FunctionWatchEvent.change :: FunctionWatchEvent.change :: mid) =
      functionWatcherRun (functionWatcherRun initialFunctionWatchState
        [FunctionWatchEvent.change, FunctionWatchEvent.change]) mid := rfl
  have hmem : 0 ∈ (functionWatcherRun initialFunctionWatchState
      (FunctionWatchEvent.change :: FunctionWatchEvent.change :: mid)).aborted := by
    rw [hrun]
    exact aborted_mono_run mid _ h0
  unfold functionWatcherActsAfter
  simp only [functionWatcherStep, functionWatcherOnSettle]
  split
  · rw [decide_eq_true hmem]
    exact buildChain_aborted_no_sync buildOk syncOk
  · simp

/-- Witness for the amended C2: the theorem applied with no intervening
events and a successful stale build. -/
theorem functionWatcher_superseded_build_never_syncs_witness :
    Action.updateExtensionDraft ∉
      functionWatcherActsAfter [FunctionWatchEvent.change, FunctionWatchEvent.change]
        (FunctionWatchEvent.settle 0 true true) :=
  functionWatcher_superseded_build_never_syncs [] true true

/-- C3: the draftable-extension watch callback initiates a remote draft sync
exactly when the rebuild result carries no error (`result?.errors?.length ??
0` is zero); for a present error list, that count is zero exactly when the
list is empty. -/
theorem draftableExtensionWatch_syncs_iff_no_errors (result : Option BundleResult) :
    (Action.updateExtensionDraft ∈ draftableExtensionWatch result ↔
      bundleErrorCount result = 0) ∧
    ∀ es : List String, bundleErrorCount (some { errors := some es }) = 0 ↔ es = [] := by
  constructor
  · by_cases h : bundleErrorCount result = 0
    · simp [draftableExtensionWatch, h]
    · simp [draftableExtensionWatch, h, Nat.pos_of_ne_zero h]
  · intro es
    simp [bundleErrorCount, List.length_eq_zero]

/-- Witness for C3: an error-free result leads to a draft sync, a result
with one error does not. -/
theorem draftableExtensionWatch_syncs_iff_no_errors_witness :
    Action.updateExtensionDraft ∈ draftableExtensionWatch (some { errors := some [] }) ∧
    Action.updateExtensionDraft ∉
      draftableExtensionWatch (some { errors := some ["boom"] }) :=
  ⟨(draftableExtensionWatch_syncs_iff_no_errors (some { errors := some [] })).1.mpr rfl,
   fun hmem =>
     Nat.one_ne_zero
       ((draftableExtensionWatch_syncs_iff_no_errors
         (some { errors := some ["boom"] })).1.mp hmem)⟩

/-- C6: a locale-file change and a declarative-config change never invoke a
build (neither `bundleExtension` nor `buildFunctionExtension`); each goes
straight to its remote sync path — the payload-store notification,
respectively `updateExtensionConfig` — whatever the outcome of that remote
call. The handlers take no build state at all, so they are independent of
any in-flight build. -/
theorem locale_and_config_changes_never_build (storeOk configOk : Bool) :
    (Action.bundleExtension ∉ (localeWatcherOnChange storeOk).1 ∧
     Action.buildFunctionExtension ∉ (localeWatcherOnChange storeOk).1 ∧
     Action.payloadStoreUpdateExtension ∈ (localeWatcherOnChange storeOk).1) ∧
    (Action.bundleExtension ∉ (configWatcherOnChange configOk).1 ∧
     Action.buildFunctionExtension ∉ (configWatcherOnChange configOk).1 ∧
     Action.updateExtensionConfig ∈ (configWatcherOnChange configOk).1) := by
  revert storeOk configOk
  decide

/-- Witness for C6 at concrete remote outcomes. -/
theorem locale_and_config_changes_never_build_witness :
    Action.buildFunctionExtension ∉ (localeWatcherOnChange true).1 ∧
    Action.updateExtensionConfig ∈ (configWatcherOnChange false).1 :=
  ⟨(locale_and_config_changes_never_build true false).1.2.1,
   (locale_and_config_changes_never_build true false).2.2.2⟩

/-- The change handler always emits exactly the debug line and one build
invocation, whatever the closure state. -/
theorem functionWatcherOnChange_acts (s : FunctionWatchState) :
    (functionWatcherOnChange s).2 =
      [Action.outputDebug "Function extension file changed",
       Action.buildFunctionExtension] := by
  cases hbc : s.buildController <;> simp [functionWatcherOnChange, hbc]

/-- The change handler always registers a fresh in-flight build. -/
theorem functionWatcherOnChange_inFlight (s : FunctionWatchState) :
    (functionWatcherOnChange s).1.inFlight = insert s.nextId s.inFlight := by
  cases hbc : s.buildController <;> simp [functionWatcherOnChange, hbc]

/-- C8: a Remote Sync Client rejection is always caught inside the owning
handler. The function-watcher build chain settles fulfilled even when the
draft push rejects; the locale and config handlers settle fulfilled when
their pushes reject; none of the three emits a watcher close; and after a
settle whose sync failed, a next change event still invokes the builder and
registers a fresh in-flight build — the session keeps watching. -/
theorem sync_failures_are_caught_and_watching_continues
    (signalAborted buildOk : Bool) (s : FunctionWatchState) (cid : Nat) :
    (buildChain signalAborted buildOk false).2 = PromiseState.fulfilled ∧
    (localeWatcherOnChange false).2 = PromiseState.fulfilled ∧
    (configWatcherOnChange false).2 = PromiseState.fulfilled ∧
    (∀ d, Action.watcherCloseAttempt d ∉ (buildChain signalAborted buildOk false).1) ∧
    (∀ d, Action.watcherCloseAttempt d ∉ (localeWatcherOnChange false).1) ∧
    (∀ d, Action.watcherCloseAttempt d ∉ (configWatcherOnChange false).1) ∧
    Action.buildFunctionExtension ∈
      (functionWatcherOnChange (functionWatcherOnSettle s cid buildOk false).1).2 ∧
    (functionWatcherOnChange (functionWatcherOnSettle s cid buildOk false).1).1.inFlight =
      insert (functionWatcherOnSettle s cid buildOk false).1.nextId
        (functionWatcherOnSettle s cid buildOk false).1.inFlight := by
  refine ⟨?_, rfl, rfl, ?_, ?_, ?_, ?_, ?_⟩
  · cases signalAborted <;> cases buildOk <;> rfl
  · intro d
    cases signalAborted <;> cases buildOk <;> simp [buildChain]
  · intro d
    simp [localeWatcherOnChange]
  · intro d
    simp [configWatcherOnChange]
  · rw [functionWatcherOnChange_acts]
    simp
  · exact functionWatcherOnChange_inFlight _

/-- Witness for C8 at a concrete state: the failed draft push of build 0 is
caught, and the next change still starts a build. -/
theorem sync_failures_are_caught_and_watching_continues_witness :
    (buildChain false true false).2 = PromiseState.fulfilled ∧
    Action.watcherCloseAttempt "uuid-9" ∉ (buildChain false true false).1 ∧
    Action.buildFunctionExtension ∈
      (functionWatcherOnChange
        (functionWatcherOnSettle initialFunctionWatchState 0 true false).1).2 :=
  ⟨(sync_failures_are_caught_and_watching_continues false true
      initialFunctionWatchState 0).1,
   (sync_failures_are_caught_and_watching_continues false true
      initialFunctionWatchState 0).2.2.2.1 "uuid-9",
   (sync_failures_are_caught_and_watching_continues false true
      initialFunctionWatchState 0).2.2.2.2.2.2.1⟩

/-- C4 (counterexample): with two extensions whose watcher setup succeeds
but whose first bundler promise rejects, every iteration still runs (the
second unit starts fully), yet `await Promise.all(bundlers)` rejects, so
`setupBundlerAndFileWatcher` rejects and the caller receives no close
handle. -/
theorem setupBundlerAndFileWatcher_no_handle_on_bundler_rejection :
    (setupBundlerAndFileWatcher
        [{ devUUID := "ext-a", chokidarThrows := false, bundlerFulfills := false },
         { devUUID := "ext-b", chokidarThrows := false, bundlerFulfills := true }]).1 =
      [{ devUUID := "ext-a", bundlerStarted := true, localeWatcherStarted := true,
         abortListenerRegistered := true },
       { devUUID := "ext-b", bundlerStarted := true, localeWatcherStarted := true,
         abortListenerRegistered := true }] ∧
    (setupBundlerAndFileWatcher
        [{ devUUID := "ext-a", chokidarThrows := false, bundlerFulfills := false },
         { devUUID := "ext-b", chokidarThrows := false, bundlerFulfills := true }]).2 =
      false := by
  decide

/-- C4 (amended): what each unit gets started (its bundler always, its
locale watcher and abort listener unless its own `chokidar.watch` throws)
depends only on that unit — a failure in one unit's setup does not prevent
the others from starting — but the close handle is returned exactly when
every unit's bundler promise fulfills, not on partial success. -/
theorem setupBundlerAndFileWatcher_partial_start
    (pre post : List BundlerSetupInput) (input : BundlerSetupInput) :
    ((setupBundlerAndFileWatcher (pre ++ input :: post)).1)[pre.length]? =
      some (bundlerSetupIteration input) ∧
    ((setupBundlerAndFileWatcher (pre ++ input :: post)).2 = true ↔
      ∀ i ∈ pre ++ input :: post, i.bundlerFulfills = true) := by
  constructor
  · show (List.map bundlerSetupIteration (pre ++ input :: post))[pre.length]? = _
    rw [List.map_append, List.getElem?_append_right (by simp)]
    simp
  · show (pre ++ input :: post).all (fun i => i.bundlerFulfills) = true ↔ _
    exact List.all_eq_true

/-- Witness for the amended C4: a single unit whose chokidar watch throws
still has its bundler started, and with its bundler fulfilled the handle is
returned. -/
theorem setupBundlerAndFileWatcher_partial_start_witness :
    (setupBundlerAndFileWatcher
        [{ devUUID := "ext-c", chokidarThrows := true, bundlerFulfills := true }]).1[0]? =
      some (bundlerSetupIteration
        { devUUID := "ext-c", chokidarThrows := true, bundlerFulfills := true }) :=
  (setupBundlerAndFileWatcher_partial_start [] []
    { devUUID := "ext-c", chokidarThrows := true, bundlerFulfills := true }).1

/-- Whether an action is the start of a close attempt on a watcher handle. -/
def isWatcherCloseAttempt : Action → Bool
  | Action.watcherCloseAttempt _ => true
  | _ => false

/-- Each abort listener performs exactly one close attempt. -/
theorem watcherAbortListener_one_attempt (h : WatcherHandle) :
    ((watcherAbortListener h).1.countP isWatcherCloseAttempt) = 1 := by
  cases hc : h.closeFulfills <;>
    simp [watcherAbortListener, hc, isWatcherCloseAttempt]

/-- The listener chain of every handle settles fulfilled: a close failure is
logged through `.catch` and never escapes. -/
theorem watcherAbortListener_fulfilled (h : WatcherHandle) :
    (watcherAbortListener h).2 = PromiseState.fulfilled := by
  cases hc : h.closeFulfills <;> simp [watcherAbortListener, hc]

/-- Firing the signal for the first time runs every registered listener. -/
theorem orchestratorClose_not_fired (st : OrchestratorState)
    (handles : List WatcherHandle) (hns : st.signalFired = false) :
    orchestratorClose st handles =
      ({ st with signalFired := true },
       handles.flatMap (fun handle => (watcherAbortListener handle).1)) := by
  simp [orchestratorClose, hns]

/-- C9: the first `close()` makes one close attempt per registered watcher
handle; every handle is attempted and every failed close is logged with its
unit identity, regardless of the other handles; a close rejection never
escapes a listener; `close()` neither touches nor waits for pending syncs
(it emits no sync call and returns with the sync count unchanged); and a
second `close()` does nothing. -/
theorem orchestratorClose_spec (st : OrchestratorState)
    (handles : List WatcherHandle) (hns : st.signalFired = false) :
    ((orchestratorClose st handles).2.countP isWatcherCloseAttempt = handles.length) ∧
    (∀ h ∈ handles,
      Action.watcherCloseAttempt h.devUUID ∈ (orchestratorClose st handles).2) ∧
    (∀ h ∈ handles, h.closeFulfills = false →
      Action.outputDebug ("File watching failed to close for extension with " ++ h.devUUID)
        ∈ (orchestratorClose st handles).2) ∧
    (∀ h, (watcherAbortListener h).2 = PromiseState.fulfilled) ∧
    ((orchestratorClose st handles).1.pendingSyncs = st.pendingSyncs) ∧
    (Action.updateExtensionDraft ∉ (orchestratorClose st handles).2) ∧
    (orchestratorClose (orchestratorClose st handles).1 handles =
      ((orchestratorClose st handles).1, [])) := by
  rw [orchestratorClose_not_fired st handles hns]
  refine ⟨?_, ?_, ?_, watcherAbortListener_fulfilled, rfl, ?_, by simp [orchestratorClose]⟩
  · induction handles with
    | nil => rfl
    | cons h hs ih =>
      rw [List.flatMap_cons, List.countP_append, watcherAbortListener_one_attempt,
        ih, List.length_cons]
      omega
  · intro h hh
    rw [List.mem_flatMap]
    refine ⟨h, hh, ?_⟩
    cases hc : h.closeFulfills <;> simp [watcherAbortListener, hc]
  · intro h hh hfail
    rw [List.mem_flatMap]
    refine ⟨h, hh, ?_⟩
    simp [watcherAbortListener, hfail]
  · rw [List.mem_flatMap]
    rintro ⟨h, _, hmem⟩
    revert hmem
    cases hc : h.closeFulfills <;> simp [watcherAbortListener, hc]

/-- Witness for C9: two handles, the first failing to close: both close
attempts happen, the failure is logged for the first unit only, and the
second call is a no-op. -/
theorem orchestratorClose_spec_witness :
    (orchestratorClose { signalFired := false, pendingSyncs := 2 }
        [{ devUUID := "u1", closeFulfills := false },
         { devUUID := "u2", closeFulfills := true }]).2.countP isWatcherCloseAttempt = 2 ∧
    Action.outputDebug ("File watching failed to close for extension with " ++ "u1") ∈
      (orchestratorClose { signalFired := false, pendingSyncs := 2 }
        [{ devUUID := "u1", closeFulfills := false },
         { devUUID := "u2", closeFulfills := true }]).2 ∧
    (orchestratorClose { signalFired := false, pendingSyncs := 2 }
        [{ devUUID := "u1", closeFulfills := false },
         { devUUID := "u2", closeFulfills := true }]).1.pendingSyncs = 2 :=
  ⟨(orchestratorClose_spec { signalFired := false, pendingSyncs := 2 }
      [{ devUUID := "u1", closeFulfills := false },
       { devUUID := "u2", closeFulfills := true }] rfl).1,
   (orchestratorClose_spec { signalFired := false, pendingSyncs := 2 }
      [{ devUUID := "u1", closeFulfills := false },
       { devUUID := "u2", closeFulfills := true }] rfl).2.2.1
     { devUUID := "u1", closeFulfills := false } (by simp) rfl,
   (orchestratorClose_spec { signalFired := false, pendingSyncs := 2 }
      [{ devUUID := "u1", closeFulfills := false },
       { devUUID := "u2", closeFulfills := true }] rfl).2.2.2.2.1⟩

end S2P
